import Mathlib

/-!
Verification development for the Tasmota provisioning and testing tool
(`Tool/mqtt_tester.py`).  The Python source is shallowly embedded: pure
functions become Lean functions, I/O-performing functions take the outcome
of their external interactions (HTTP responses, serial-port behaviour,
message streams) as explicit parameters, and exceptions become `Option` /
explicit failure constructors.  Python floats are modelled as rationals
(`ℚ`); every numeric literal appearing in the source is exactly
representable.
-/

/-! ## JSON values

Parsed JSON as produced by `json.loads` / `r.json()`: numbers, strings,
booleans, null, arrays and objects (objects keep key order; `dict.get`
is first-match lookup). -/

inductive J where
  | num (q : ℚ)
  | str (s : String)
  | jbool (b : Bool)
  | null
  | arr (xs : List J)
  | obj (kvs : List (String × J))

/-- Lookup modelling Python `dict.get` (JSON object keys are unique, so
first match agrees with dict semantics). -/
def lookupJ : List (String × J) → String → Option J
  | [], _ => none
  | (k, v) :: rest, key => if k = key then some v else lookupJ rest key

/-- Python truthiness for an optional string argument (`argparse` leaves
absent options as `None`; `if args.x:` is false for `None` and `""`). -/
def truthy : Option String → Bool
  | none => false
  | some s => !s.isEmpty

/-! ## Model of Python `float(val)`

`float` succeeds on numbers, booleans (`float(True) = 1.0`) and strings
holding a decimal literal (optional surrounding whitespace, sign, digits
with optional fraction and exponent); it raises `ValueError`/`TypeError`
— modelled as `none` — on anything else.  (`inf`/`nan` literals and digit
underscores, which CPython also accepts, are outside the exact-rational
model and are not exercised by any claim.) -/

def readDigitsAux : ℕ → ℕ → List Char → ℕ × ℕ × List Char
  | acc, n, [] => (acc, n, [])
  | acc, n, c :: cs =>
    if c.isDigit then readDigitsAux (10 * acc + (c.toNat - 48)) (n + 1) cs
    else (acc, n, c :: cs)

def parseSign : List Char → Bool × List Char
  | '-' :: cs => (true, cs)
  | '+' :: cs => (false, cs)
  | cs => (false, cs)

/-- Parse the digit part of a decimal literal: returns the mantissa as an
integer together with the number of fractional digits and the unconsumed
input. -/
def parseMantissa (cs : List Char) : Option (ℕ × ℕ × List Char) :=
  let (ip, ni, r1) := readDigitsAux 0 0 cs
  match r1 with
  | '.' :: r2 =>
    let (fp, nf, r3) := readDigitsAux 0 0 r2
    if ni = 0 && nf = 0 then none
    else some (ip * 10 ^ nf + fp, nf, r3)
  | _ => if ni = 0 then none else some (ip, 0, r1)

def parseExponent : List Char → Option (ℤ × List Char)
  | 'e' :: r =>
    let (neg, r2) := parseSign r
    let (ev, ne, r3) := readDigitsAux 0 0 r2
    if ne = 0 then none else some (if neg then -(ev : ℤ) else (ev : ℤ), r3)
  | 'E' :: r =>
    let (neg, r2) := parseSign r
    let (ev, ne, r3) := readDigitsAux 0 0 r2
    if ne = 0 then none else some (if neg then -(ev : ℤ) else (ev : ℤ), r3)
  | cs => some (0, cs)

def isPySpace (c : Char) : Bool :=
  c == ' ' || c == '\t' || c == '\n' || c == '\r'

def pyFloatOfChars (cs : List Char) : Option ℚ :=
  let cs1 := cs.dropWhile isPySpace
  let (neg, cs2) := parseSign cs1
  match parseMantissa cs2 with
  | none => none
  | some (m, nf, r) =>
    match parseExponent r with
    | none => none
    | some (e, r2) =>
      if (r2.dropWhile isPySpace).isEmpty then
        let sNum : ℤ := if neg then -(Int.ofNat m) else Int.ofNat m
        match e with
        | .ofNat k => some (Rat.divInt (sNum * Int.ofNat (10 ^ k)) (Int.ofNat (10 ^ nf)))
        | .negSucc k => some (Rat.divInt sNum (Int.ofNat (10 ^ nf * 10 ^ (k + 1))))
      else none

/-- `float(val)` on a JSON value.  `none` models a raised
`ValueError`/`TypeError` (caught by the validator). -/
def pyFloat : J → Option ℚ
  | .num q => some q
  | .jbool b => some (if b then 1 else 0)
  | .str s => pyFloatOfChars s.data
  | _ => none

/-- Python `x == 0.0` on the result of `dict.get` (`None == 0.0` is
`False`; `False == 0.0` is `True`; a string is never `== 0.0`). -/
def pyEq0 : Option J → Bool
  | some (.num q) => decide (q = 0)
  | some (.jbool b) => !b
  | _ => false

/-! ## Validator (`validate_sensor_data`) -/

def missingMsg (key : String) : String := "Field " ++ key ++ " is missing"

def notNumMsg (key : String) : String := "Field " ++ key ++ " is not a valid number"

def outOfRangeMsg (key : String) (q mn mx : ℚ) : String :=
  "Value " ++ key ++ "=" ++ toString q ++ " out of range (" ++ toString mn ++ ".." ++ toString mx ++ ")"

def suspiciousMsg : String :=
  "Suspicious reading: Zero values might indicate sensor communication failure"

def notFoundMsg (sensor_name : String) : String :=
  "Sensor \x27" ++ sensor_name ++ "\x27 not found in JSON"

/-- `val is None`: true for a JSON null value (and `s.get` already returns
`None` itself for an absent key). -/
def J.isNull : J → Bool
  | .null => true
  | _ => false

/-- One iteration of the validator's limits loop: `val = s.get(key)`;
`None` (absent key or JSON null) → missing; `float(val)` failure → not a
number; parsed value outside the inclusive `min_v <= v <= max_v` range →
out of range; otherwise no error. -/
def checkField (s : List (String × J)) (key : String) (mn mx : ℚ) : List String :=
  match lookupJ s key with
  | none => [missingMsg key]
  | some v =>
    if v.isNull then [missingMsg key]
    else
      match pyFloat v with
      | none => [notNumMsg key]
      | some q => if mn ≤ q ∧ q ≤ mx then [] else [outOfRangeMsg key q mn mx]

/-- The cross-field heuristic: `s.get("Temperature") == 0.0 and
s.get("Humidity") == 0.0` appends the suspicious-reading warning. -/
def zeroErrs (s : List (String × J)) : List String :=
  if pyEq0 (lookupJ s "Temperature") && pyEq0 (lookupJ s "Humidity") then [suspiciousMsg] else []

/-- `validate_sensor_data(payload, sensor_name)`.  The `limits` dict is
iterated in insertion order (Temperature, Humidity, Pressure).  `none`
models the uncaught `AttributeError` raised by `s.get` when the named
block is present but is not a JSON object. -/
def validate_sensor_data (payload : List (String × J)) (sensor_name : String) :
    Option (List String) :=
  match lookupJ payload sensor_name with
  | none => some [notFoundMsg sensor_name]
  | some (.obj s) =>
    some (checkField s "Temperature" 10 85 ++ checkField s "Humidity" 0 100 ++
      checkField s "Pressure" 700 1150 ++ zeroErrs s)
  | some _ => none

/-! ## Data structures and CLI configuration -/

/-- The argparse namespace: exactly the fields added in `main`, in
declaration order.  Optional string arguments default to `None`. -/
structure Args where
  cidr : Option String
  target_ip : Option String
  provision_via : String
  mqtt_host : String
  mqtt_port : ℤ
  mqtt_user : Option String
  mqtt_password : Option String
  wifi_ssid : Option String
  wifi_password : Option String
  sensor_name : String
  teleperiod : ℤ
  mqtt_wait_sec : ℚ
  report_file : Option String
  log : Bool

/-- `DeviceInfo` dataclass.  `topic` and `model` hold whatever JSON value
the probe extracted (Python does not enforce the `Optional[str]`
annotation). -/
structure DeviceInfo where
  ip : String
  port : ℤ := 80
  topic : Option J := none
  model : Option J := none
  discovered_by : String := "scan"

/-- `ProvisionResult` dataclass.  `responses` is `Dict[str, Any]` in the
source: per-command strings for serial, the aggregate `r.json()` value
for HTTP; modelled uniformly as a JSON value. -/
structure ProvisionResult where
  ok : Bool
  method : String
  commands_sent : List String
  responses : J
  error : Option String := none

/-- `MqttValidationResult` dataclass. -/
structure MqttValidationResult where
  ok : Bool
  received_messages : ℕ
  topic : String
  errors : List String
  first_payload : Option (List (String × J)) := none
  duration_sec : ℚ := 0

/-! ## Provisioning command sequences -/

/-- The WiFi part shared verbatim by both strategies: `SSID1` if the SSID
argument is truthy, then `Password1` if additionally the password is
truthy. -/
def ssidCmds (a : Args) : List String :=
  if truthy a.wifi_ssid then
    ("SSID1 " ++ a.wifi_ssid.getD "") ::
      (if truthy a.wifi_password then ["Password1 " ++ a.wifi_password.getD ""] else [])
  else []

def userCmds (a : Args) : List String :=
  if truthy a.mqtt_user then ["MqttUser " ++ a.mqtt_user.getD ""] else []

def passCmds (a : Args) : List String :=
  if truthy a.mqtt_password then ["MqttPassword " ++ a.mqtt_password.getD ""] else []

/-- The `backlog` list built by `provision_via_http`: WiFi commands, then
`MqttHost`, `MqttPort`, `TelePeriod`, then optional `MqttUser` /
`MqttPassword`, then `Restart 1`. -/
def httpBacklog (a : Args) : List String :=
  ssidCmds a ++
    ["MqttHost " ++ a.mqtt_host, "MqttPort " ++ toString a.mqtt_port,
      "TelePeriod " ++ toString a.teleperiod] ++
    userCmds a ++ passCmds a ++ ["Restart 1"]

/-- The sequence of `send(...)` calls in `provision_via_serial`: WiFi
commands, then `MqttHost`, `MqttPort`, optional `MqttUser` /
`MqttPassword`, then `TelePeriod`, then `Restart 1`. -/
def serialCommands (a : Args) : List String :=
  ssidCmds a ++
    ["MqttHost " ++ a.mqtt_host, "MqttPort " ++ toString a.mqtt_port] ++
    userCmds a ++ passCmds a ++
    ["TelePeriod " ++ toString a.teleperiod, "Restart 1"]

/-- Python `"; ".join`. -/
def joinSemi : List String → String
  | [] => ""
  | [c] => c
  | c :: c2 :: rest => c ++ "; " ++ joinSemi (c2 :: rest)

/-- The single composite command issued by the HTTP strategy. -/
def httpFullCmd (a : Args) : String := "Backlog " ++ joinSemi (httpBacklog a)

/-! ## HTTP provisioning -/

/-- Outcome of the one `requests.get` call: `exn` models a raised
transport exception (connection error, timeout — `requests` never raises
for an HTTP error status), `resp` a delivered response whose body either
parses as JSON (`Except.ok`) or makes `r.json()` raise
(`Except.error`). -/
inductive HttpOutcome where
  | exn (msg : String)
  | resp (status : ℕ) (body : Except String J)

/-- `provision_via_http`.  The status code of the response is never
inspected by the source; success is solely absence of an exception. -/
def provision_via_http (net : HttpOutcome) (a : Args) : ProvisionResult :=
  let full_cmd := httpFullCmd a
  match net with
  | .exn m => ⟨false, "http", [full_cmd], J.obj [], some m⟩
  | .resp _ (.error m) => ⟨false, "http", [full_cmd], J.obj [], some m⟩
  | .resp _ (.ok j) => ⟨true, "http", [full_cmd], j, none⟩

/-! ## Serial provisioning -/

/-- Behaviour of the serial port: whether `serial.Serial(...)` raises on
open, whether the `i`-th `ser.write` raises, the data `ser.read_all`
returns after the `i`-th successful write, and the text of the raised
exception. -/
structure SerialPort where
  openFails : Bool
  writeFails : ℕ → Bool
  readData : ℕ → String
  exnMsg : String

/-- The sequence of `send(c)` calls: each appends `c` to `cmds` *before*
writing, so a failing write leaves its own command in the list; the
response is recorded only after a successful write. -/
def serialLoop (wf : ℕ → Bool) (rd : ℕ → String) :
    ℕ → List String → List String → List (String × String) →
      Bool × List String × List (String × String)
  | _, [], cmds, resps => (true, cmds, resps)
  | i, c :: rest, cmds, resps =>
    let cmds2 := cmds ++ [c]
    if wf i then (false, cmds2, resps)
    else serialLoop wf rd (i + 1) rest cmds2 (resps ++ [(c, rd i)])

/-- `provision_via_serial`: open (possibly raising), then the `send`
sequence; any exception is caught by the single handler, which returns
the commands and responses accumulated so far. -/
def provision_via_serial (port : SerialPort) (a : Args) : ProvisionResult :=
  if port.openFails then ⟨false, "serial", [], J.obj [], some port.exnMsg⟩
  else
    match serialLoop port.writeFails port.readData 0 (serialCommands a) [] [] with
    | (true, cmds, resps) =>
      ⟨true, "serial", cmds, J.obj (resps.map fun p => (p.1, J.str p.2)), none⟩
    | (false, cmds, resps) =>
      ⟨false, "serial", cmds, J.obj (resps.map fun p => (p.1, J.str p.2)), some port.exnMsg⟩

/-! ## Discovery engine -/

/-- Python truthiness of a JSON value (used by the `or` fallback chain for
the model/name field). -/
def jTruthy : J → Bool
  | .null => false
  | .jbool b => b
  | .num q => !decide (q = 0)
  | .str s => !s.isEmpty
  | .arr xs => !xs.isEmpty
  | .obj kvs => !kvs.isEmpty

/-- `st.get("DeviceName") or st.get("FriendlyName", "Tasmota")`. -/
def deviceModel (st : List (String × J)) : J :=
  match lookupJ st "DeviceName" with
  | some v => if jTruthy v then v else (lookupJ st "FriendlyName").getD (J.str "Tasmota")
  | none => (lookupJ st "FriendlyName").getD (J.str "Tasmota")

/-- Outcome of one probe's `session.get`: `exn` models any raised
exception (timeout, refused connection); `resp` a delivered response
whose body parses as JSON (`some`) or raises inside `r.json`
(`none`). -/
inductive ProbeOutcome where
  | exn
  | resp (status : ℕ) (body : Option J)

/-- `_probe_ip`.  Everything other than a 200 response whose JSON body is
an object with an object-valued top-level `"Status"` key falls into the
bare `except: pass` (non-object bodies and non-object `Status` values
raise on indexing / `.get`) and yields `None`. -/
def probe_ip (net : ProbeOutcome) (ip : String) (port : ℤ) : Option DeviceInfo :=
  match net with
  | .exn => none
  | .resp status body =>
    if status = 200 then
      match body with
      | some (J.obj kvs) =>
        match lookupJ kvs "Status" with
        | some (J.obj st) =>
          some { ip := ip, port := port,
                 topic := some ((lookupJ st "Topic").getD (J.str "unknown")),
                 model := some (deviceModel st),
                 discovered_by := "http-probe" }
        | _ => none
      | _ => none
    else none

/-- The list of results of the `asyncio.gather` over one `_probe_ip` task
per host address (the `hosts` parameter stands for
`ipaddress.ip_network(cidr).hosts()`, the range with network and
broadcast addresses excluded). -/
def probeResults (hosts : List String) (net : String → ProbeOutcome) (port : ℤ) :
    List (Option DeviceInfo) :=
  hosts.map fun ip => probe_ip (net ip) ip port

/-- `scan_network`: keep the non-`None` results. -/
def scan_network (hosts : List String) (net : String → ProbeOutcome) (port : ℤ) :
    List DeviceInfo :=
  (probeResults hosts net port).filterMap id

/-- The manually-targeted device built in `main` from `--target-ip`. -/
def manualDevice (ip : String) : DeviceInfo :=
  { ip := ip, discovered_by := "manual" }

/-! ## MQTT telemetry validation -/

/-- One message taken from the queue: either its payload fails
`json.loads` or it parses to a JSON object (keyed by sensor-block
names). -/
inductive MqttMsg where
  | malformed
  | wellformed (payload : List (String × J))

/-- Outcome of `client.connect`: a raised exception, or a delivered
CONNACK code passed to `on_connect` (`0` = success; anything else makes
`on_connect` record an error and skip the subscription, so no message is
ever delivered). -/
inductive ConnectOutcome where
  | exn (msg : String)
  | connected (rc : ℕ)

/-- The message-consumption loop of `validate_mqtt_sensor`: malformed
JSON records an error and continues; a payload with zero violations
terminates with that payload; violations are appended and the loop
continues; an exception escaping `validate_sensor_data` (named block
present but not an object) aborts the loop via the outer handler.  The
input list is the stream of messages delivered within the wall-clock
budget. -/
def consume (sensor_name : String) :
    List String → List MqttMsg → List String × Option (List (String × J))
  | errs, [] => (errs, none)
  | errs, .malformed :: rest => consume sensor_name (errs ++ ["Invalid JSON received"]) rest
  | errs, .wellformed p :: rest =>
    match validate_sensor_data p sensor_name with
    | none => (errs ++ ["MQTT Library Error: AttributeError"], none)
    | some [] => (errs, some p)
    | some (e :: es) => consume sensor_name (errs ++ (e :: es)) rest

/-- `list(set(errors))`: CPython's set iteration order is unspecified;
modelled as first-occurrence deduplication.  Statements that involve the
resulting list only rely on its underlying set and duplicate-freeness
where the order is not forced by the model. -/
def pySetList (l : List String) : List String := l.dedup

/-- Effect of the connection outcome: the errors recorded before the
loop, and whether the subscription happened (without it no message is
ever delivered to the queue). -/
def connectLog : ConnectOutcome → List String × Bool
  | .exn m => (["MQTT Library Error: " ++ m], false)
  | .connected 0 => ([], true)
  | .connected rc => (["MQTT Conn Failed: " ++ toString rc], false)

/-- The two `return` statements of `validate_mqtt_sensor`: an accepted
payload yields the success result (discarding accumulated errors); the
fall-through yields the failure result with
`list(set(errors)) or ["No valid telemetry received"]`. -/
def finishResult (sub_topic : String) (dur : ℚ) :
    List String × Option (List (String × J)) → MqttValidationResult
  | (_, some p) => ⟨true, 1, sub_topic, [], some p, dur⟩
  | (errs, none) =>
    let ded := pySetList errs
    ⟨false, 0, sub_topic, if ded.isEmpty then ["No valid telemetry received"] else ded, none, dur⟩

/-- `validate_mqtt_sensor(args, topic)` over explicit connection and
stream behaviour; `dur` stands for the measured `time.time() - t0`. -/
def validate_mqtt_sensor (a : Args) (topic : String) (conn : ConnectOutcome)
    (msgs : List MqttMsg) (dur : ℚ) : MqttValidationResult :=
  let c := connectLog conn
  finishResult ("tele/" ++ topic ++ "/SENSOR") dur
    (consume a.sensor_name c.1 (if c.2 then msgs else []))

/-! ## Report construction -/

def optJ : Option String → J
  | none => J.null
  | some s => J.str s

/-- `vars(args)` as a key-ordered association list (argparse insertion
order). -/
def argsVars (a : Args) : List (String × J) :=
  [("cidr", optJ a.cidr), ("target_ip", optJ a.target_ip),
   ("provision_via", J.str a.provision_via), ("mqtt_host", J.str a.mqtt_host),
   ("mqtt_port", J.num (Rat.divInt a.mqtt_port 1)), ("mqtt_user", optJ a.mqtt_user),
   ("mqtt_password", optJ a.mqtt_password), ("wifi_ssid", optJ a.wifi_ssid),
   ("wifi_password", optJ a.wifi_password), ("sensor_name", J.str a.sensor_name),
   ("teleperiod", J.num (Rat.divInt a.teleperiod 1)), ("mqtt_wait_sec", J.num a.mqtt_wait_sec),
   ("report_file", optJ a.report_file), ("log", J.jbool a.log)]

def isPrefixChars : List Char → List Char → Bool
  | [], _ => true
  | _ :: _, [] => false
  | a :: as, b :: bs => a == b && isPrefixChars as bs

def containsChars (needle : List Char) : List Char → Bool
  | [] => isPrefixChars needle []
  | c :: rest => isPrefixChars needle (c :: rest) || containsChars needle rest

/-- Python's substring test `needle in hay`. -/
def strContains (hay needle : String) : Bool := containsChars needle.data hay.data

/-- `{k: v for k, v in vars(args).items() if "password" not in k}`. -/
def configUsed (a : Args) : List (String × J) :=
  (argsVars a).filter fun kv => !strContains kv.1 "password"

/-- The `final_report` dict assembled in phase 3. -/
structure FinalReport where
  devices_found : ℕ
  provisioning_count : ℕ
  successful_validations : ℕ
  config_used : List (String × J)
  discovered_devices : List DeviceInfo
  provisioning_logs : List (String × ProvisionResult)
  mqtt_validation : List (String × MqttValidationResult)

def buildReport (a : Args) (devices : List DeviceInfo)
    (prov : List (String × ProvisionResult))
    (mq : List (String × MqttValidationResult)) : FinalReport :=
  { devices_found := devices.length,
    provisioning_count := prov.length,
    successful_validations := (mq.filter fun kv => kv.2.ok).length,
    config_used := configUsed a,
    discovered_devices := devices,
    provisioning_logs := prov,
    mqtt_validation := mq }

/-- Substring as a proposition: `needle` occurs contiguously in `hay`. -/
def IsSubstr (needle hay : String) : Prop :=
  ∃ pre post : List Char, hay.data = pre ++ needle.data ++ post

def exampleArgs : Args :=
  { cidr := some "192.168.1.0/24", target_ip := none, provision_via := "serial",
    mqtt_host := "192.168.1.100", mqtt_port := 1883, mqtt_user := some "user",
    mqtt_password := some "mqpass", wifi_ssid := some "homenet",
    wifi_password := some "hunter2", sensor_name := "CustomBME280", teleperiod := 10,
    mqtt_wait_sec := 45, report_file := none, log := false }

def failThirdPort : SerialPort :=
  { openFails := false, writeFails := fun i => decide (i = 2), readData := fun _ => "ok",
    exnMsg := "write failed" }

def badPayload : List (String × J) :=
  [("CustomBME280", J.obj [("Temperature", J.num 999), ("Humidity", J.num 45),
    ("Pressure", J.num 1013)])]

def goodPayload : List (String × J) :=
  [("Time", J.str "2026-01-01T00:00:00"),
   ("CustomBME280", J.obj [("Temperature", J.num (mkRat 45 2)), ("Humidity", J.num 45),
    ("Pressure", J.num 1013)])]

/-! ## Claim-side validity predicate for the Validator -/

/-- The claim's reading of "present, numeric and within the inclusive
bounds" for one quantity. -/
def fieldOk (s : List (String × J)) (key : String) (mn mx : ℚ) : Prop :=
  ∃ v, lookupJ s key = some v ∧ v ≠ J.null ∧ ∃ q, pyFloat v = some q ∧ mn ≤ q ∧ q ≤ mx

/-- The claim's reading of "the quantity is exactly zero". -/
def fieldZero (s : List (String × J)) (key : String) : Prop :=
  ∃ v, lookupJ s key = some v ∧ pyFloat v = some 0

/-- The claim's validity condition on a sensor block: all three quantities
present, numeric and in range, and Temperature/Humidity not both exactly
zero. -/
def specValidBlock (s : List (String × J)) : Prop :=
  fieldOk s "Temperature" 10 85 ∧ fieldOk s "Humidity" 0 100 ∧
    fieldOk s "Pressure" 700 1150 ∧
    ¬(fieldZero s "Temperature" ∧ fieldZero s "Humidity")

/-- A message the validator rejects: malformed JSON, or a payload for
which `validate_sensor_data` returns a non-empty violation list. -/
def rejected (name : String) : MqttMsg → Prop
  | .malformed => True
  | .wellformed p => ∃ e es, validate_sensor_data p name = some (e :: es)

/-- The inner object of `goodPayload`'s sensor block (what the claim says
`first_payload` should equal). -/
def goodBlock : List (String × J) :=
  [("Temperature", J.num (mkRat 45 2)), ("Humidity", J.num 45), ("Pressure", J.num 1013)]

/-- A run whose first two messages are invalid and whose third is valid,
with a fourth (also valid) message behind it. -/
def firstPayloadRun : MqttValidationResult :=
  validate_mqtt_sensor exampleArgs "tasmota" (.connected 0)
    [.wellformed badPayload, .wellformed badPayload, .wellformed goodPayload,
     .wellformed goodPayload] 3

/-- The per-command `(command, read-back)` pairs recorded by a run of
successful writes starting at write index `i`. -/
def readPairs (rd : ℕ → String) : ℕ → List String → List (String × String)
  | _, [] => []
  | i, c :: cs => (c, rd i) :: readPairs rd (i + 1) cs

def exampleArgsNoCred : Args :=
  { exampleArgs with mqtt_user := none, mqtt_password := none }

/-- A concrete probe behaviour for the C7 witness: one address answers
with a valid identity, the other times out. -/
def exampleNet : String → ProbeOutcome := fun ip =>
  if ip = "10.0.0.7" then
    .resp 200 (some (J.obj [("Status", J.obj [("Topic", J.str "tasmota")])]))
  else .exn

def exampleScanDevice : DeviceInfo :=
  { ip := "10.0.0.7", port := 80, topic := some (J.str "tasmota"),
    model := some (J.str "Tasmota"), discovered_by := "http-probe" }

/-- The keys of a JSON object (used to speak about `responses` as a
dict). -/
def jObjKeys : J → List String
  | .obj kvs => kvs.map Prod.fst
  | _ => []

/-- A configuration supplying a WiFi password but no SSID (the
`Password1` command is guarded by the SSID check in both strategies). -/
def wifiOnlyArgs : Args :=
  { cidr := none, target_ip := some "192.168.1.50", provision_via := "http",
    mqtt_host := "192.168.1.100", mqtt_port := 1883, mqtt_user := none,
    mqtt_password := none, wifi_ssid := none, wifi_password := some "wpass",
    sensor_name := "CustomBME280", teleperiod := 10, mqtt_wait_sec := 45,
    report_file := none, log := false }

/-! ## Theorems -/

theorem isNull_eq_false_iff (v : J) : v.isNull = false ↔ v ≠ J.null := by
  cases v <;> simp [J.isNull]

theorem checkField_eq_nil_iff (s : List (String × J)) (key : String) (mn mx : ℚ) :
    checkField s key mn mx = [] ↔ fieldOk s key mn mx := by
  unfold checkField fieldOk
  cases h : lookupJ s key with
  | none => simp
  | some v =>
    cases hn : v.isNull with
    | true =>
      have hv : v = J.null := by cases v <;> simp_all [J.isNull]
      subst hv
      simp [J.isNull]
    | false =>
      simp only [Bool.false_eq_true, if_neg (by simp [hn] : ¬v.isNull = true)]
      cases hq : pyFloat v with
      | none => simp [hq, (isNull_eq_false_iff v).mp hn]
      | some q =>
        by_cases hr : mn ≤ q ∧ q ≤ mx
        · simp [hr, (isNull_eq_false_iff v).mp hn, hq]
        · simp [hr, hq, (isNull_eq_false_iff v).mp hn]

theorem pyEq0_true (o : Option J) (h : pyEq0 o = true) :
    ∃ v, o = some v ∧ pyFloat v = some 0 := by
  match o with
  | none => simp [pyEq0] at h
  | some (J.num q) =>
    have : q = 0 := by simpa [pyEq0] using h
    exact ⟨J.num q, rfl, by simp [pyFloat, this]⟩
  | some (J.jbool b) =>
    have : b = false := by simpa [pyEq0] using h
    exact ⟨J.jbool b, rfl, by simp [pyFloat, this]⟩
  | some (J.str s) => simp [pyEq0] at h
  | some J.null => simp [pyEq0] at h
  | some (J.arr xs) => simp [pyEq0] at h
  | some (J.obj kvs) => simp [pyEq0] at h

theorem fieldOk_T_pyEq0_false (s : List (String × J))
    (hT : fieldOk s "Temperature" 10 85) :
    pyEq0 (lookupJ s "Temperature") = false := by
  cases hb : pyEq0 (lookupJ s "Temperature") with
  | false => rfl
  | true =>
    obtain ⟨v0, hv0, hz0⟩ := pyEq0_true _ hb
    obtain ⟨v, hv, hnn, q, hq, h1, h2⟩ := hT
    rw [hv] at hv0
    cases hv0
    rw [hq] at hz0
    cases hz0
    exact absurd h1 (by norm_num)

theorem zeroErrs_eq_nil_of_T (s : List (String × J))
    (hT : fieldOk s "Temperature" 10 85) : zeroErrs s = [] := by
  unfold zeroErrs
  rw [fieldOk_T_pyEq0_false s hT]
  simp

/-- C4: for every payload and sensor-block name, the validator returns an
empty error list exactly when the named block is present (as an object)
and all three quantities are present, numeric and within their inclusive
bounds, and Temperature and Humidity are not both exactly zero. -/
theorem validator_empty_iff (payload : List (String × J)) (sensor_name : String) :
    validate_sensor_data payload sensor_name = some [] ↔
      ∃ s, lookupJ payload sensor_name = some (J.obj s) ∧ specValidBlock s := by
  unfold validate_sensor_data
  cases h : lookupJ payload sensor_name with
  | none => simp [notFoundMsg]
  | some v =>
    cases v with
    | num q => simp
    | str s => simp
    | jbool b => simp
    | null => simp
    | arr xs => simp
    | obj s =>
      simp only [Option.some.injEq]
      constructor
      · intro he
        rw [List.append_eq_nil, List.append_eq_nil, List.append_eq_nil] at he
        obtain ⟨⟨⟨h1, h2⟩, h3⟩, h4⟩ := he
        have hT := (checkField_eq_nil_iff s "Temperature" 10 85).mp h1
        refine ⟨s, rfl, hT, (checkField_eq_nil_iff s "Humidity" 0 100).mp h2,
          (checkField_eq_nil_iff s "Pressure" 700 1150).mp h3, ?_⟩
        rintro ⟨⟨vT, hvT, hzT⟩, _⟩
        obtain ⟨v, hv, hnn, q, hq, hq1, hq2⟩ := hT
        rw [hv] at hvT
        cases hvT
        rw [hq] at hzT
        cases hzT
        exact absurd hq1 (by norm_num)
      · rintro ⟨s', hs', hT, hH, hP, _⟩
        cases hs'
        rw [(checkField_eq_nil_iff s "Temperature" 10 85).mpr hT,
          (checkField_eq_nil_iff s "Humidity" 0 100).mpr hH,
          (checkField_eq_nil_iff s "Pressure" 700 1150).mpr hP,
          zeroErrs_eq_nil_of_T s hT]
        rfl

theorem consume_accept (name : String) (v : List (String × J))
    (hv : validate_sensor_data v name = some []) (pre : List MqttMsg) :
    ∀ (errs : List String), (∀ m ∈ pre, rejected name m) →
      ∃ errs2, ∀ rest, consume name errs (pre ++ .wellformed v :: rest) = (errs2, some v) := by
  induction pre with
  | nil =>
    intro errs _
    exact ⟨errs, fun rest => by simp [consume, hv]⟩
  | cons m pre ih =>
    intro errs hp
    have htail : ∀ m2 ∈ pre, rejected name m2 := fun m2 hm2 => hp m2 (List.mem_cons_of_mem _ hm2)
    cases m with
    | malformed =>
      obtain ⟨errs2, h2⟩ := ih (errs ++ ["Invalid JSON received"]) htail
      exact ⟨errs2, fun rest => by simpa [consume] using h2 rest⟩
    | wellformed p =>
      obtain ⟨e, es, hpe⟩ := hp _ (List.mem_cons_self _ _)
      obtain ⟨errs2, h2⟩ := ih (errs ++ (e :: es)) htail
      exact ⟨errs2, fun rest => by simpa [consume, hpe] using h2 rest⟩

/-- C8: every outcome of the telemetry validator has `ok` true exactly
when the accepted-message count is 1, and a false `ok` always comes with
a non-empty error list (the generic no-telemetry error is synthesized
when nothing was recorded). -/
theorem finishResult_inv (sub_topic : String) (dur : ℚ)
    (pr : List String × Option (List (String × J))) :
    ((finishResult sub_topic dur pr).ok = true ↔
      (finishResult sub_topic dur pr).received_messages = 1) ∧
    ((finishResult sub_topic dur pr).ok = false →
      (finishResult sub_topic dur pr).errors ≠ []) := by
  rcases pr with ⟨errs, acc⟩
  cases acc with
  | some p => simp [finishResult]
  | none =>
    refine ⟨by simp [finishResult], fun _ => ?_⟩
    cases hded : pySetList errs with
    | nil => simp [finishResult, hded]
    | cons e es => simp [finishResult, hded]

/-- C8: every outcome of the telemetry validator has `ok` true exactly
when the accepted-message count is 1, and a false `ok` always comes with
a non-empty error list (the generic no-telemetry error is synthesized
when nothing was recorded). -/
theorem mqtt_outcome_invariant (a : Args) (topic : String) (conn : ConnectOutcome)
    (msgs : List MqttMsg) (dur : ℚ) :
    ((validate_mqtt_sensor a topic conn msgs dur).ok = true ↔
      (validate_mqtt_sensor a topic conn msgs dur).received_messages = 1) ∧
    ((validate_mqtt_sensor a topic conn msgs dur).ok = false →
      (validate_mqtt_sensor a topic conn msgs dur).errors ≠ []) := by
  unfold validate_mqtt_sensor
  exact finishResult_inv _ _ _

/-- C5 counterexample: on the spec's own scenario the result has
`ok = true` and `received_messages = 1`, but `first_payload` is the whole
parsed message (`goodPayload`, which also holds a `Time` key), not the
message's sensor block as the claim states. -/
theorem mqtt_first_payload_cex :
    firstPayloadRun.ok = true ∧ firstPayloadRun.received_messages = 1 ∧
      firstPayloadRun.first_payload = some goodPayload ∧
      firstPayloadRun.first_payload ≠ some goodBlock := by
  refine ⟨rfl, rfl, rfl, ?_⟩
  intro h
  have h3 : goodPayload = goodBlock :=
    Option.some.inj ((rfl : firstPayloadRun.first_payload = some goodPayload).symm.trans h)
  have h4 := congrArg List.length h3
  exact absurd h4 (by decide)

/-- C5 amended: if every message before `v` is rejected (malformed, or
non-empty violation list) and `v` validates cleanly, the run returns
`ok = true`, `received_messages = 1`, `first_payload` equal to the whole
parsed payload `v`, an empty error list, and the result does not depend
on anything after `v` (no later message is inspected). -/
theorem mqtt_first_valid_wins (a : Args) (topic : String) (dur : ℚ)
    (pre rest : List MqttMsg) (v : List (String × J))
    (hpre : ∀ m ∈ pre, rejected a.sensor_name m)
    (hv : validate_sensor_data v a.sensor_name = some []) :
    (validate_mqtt_sensor a topic (.connected 0) (pre ++ .wellformed v :: rest) dur).ok = true ∧
    (validate_mqtt_sensor a topic (.connected 0) (pre ++ .wellformed v :: rest) dur).received_messages = 1 ∧
    (validate_mqtt_sensor a topic (.connected 0) (pre ++ .wellformed v :: rest) dur).first_payload = some v ∧
    (validate_mqtt_sensor a topic (.connected 0) (pre ++ .wellformed v :: rest) dur).errors = [] ∧
    ∀ rest2, validate_mqtt_sensor a topic (.connected 0) (pre ++ .wellformed v :: rest2) dur =
      validate_mqtt_sensor a topic (.connected 0) (pre ++ .wellformed v :: rest) dur := by
  obtain ⟨errs2, h2⟩ := consume_accept a.sensor_name v hv pre [] hpre
  have e1 : ∀ r2 : List MqttMsg,
      validate_mqtt_sensor a topic (.connected 0) (pre ++ .wellformed v :: r2) dur =
        finishResult ("tele/" ++ topic ++ "/SENSOR") dur (errs2, some v) := by
    intro r2
    show finishResult ("tele/" ++ topic ++ "/SENSOR") dur
        (consume a.sensor_name [] (pre ++ .wellformed v :: r2)) =
      finishResult ("tele/" ++ topic ++ "/SENSOR") dur (errs2, some v)
    rw [h2 r2]
  refine ⟨?_, ?_, ?_, ?_, fun r2 => (e1 r2).trans (e1 rest).symm⟩ <;>
    rw [e1 rest] <;> rfl

/-- C5 witness: the amended theorem applied to the spec's concrete
scenario. -/
theorem mqtt_first_valid_wins_witness :
    (validate_mqtt_sensor exampleArgs "tasmota" (.connected 0)
      ([.wellformed badPayload, .wellformed badPayload] ++
        .wellformed goodPayload :: [.wellformed goodPayload]) 3).first_payload =
      some goodPayload :=
  (mqtt_first_valid_wins exampleArgs "tasmota" 3
    [.wellformed badPayload, .wellformed badPayload] [.wellformed goodPayload] goodPayload
    (by
      intro m hm
      rcases List.mem_cons.mp hm with rfl | hm2
      · exact ⟨_, _, rfl⟩
      · rcases List.mem_cons.mp hm2 with rfl | hm3
        · exact ⟨_, _, rfl⟩
        · cases hm3)
    rfl).2.2.1

/-- C9 counterexample: a run whose first sample is rejected and whose
second is accepted returns an empty error list, discarding the recorded
violation — the error list is not the deduplicated accumulation for runs
in which a later sample is accepted. -/
theorem mqtt_errors_cex :
    (validate_mqtt_sensor exampleArgs "tasmota" (.connected 0)
      [.wellformed badPayload, .wellformed goodPayload] 3).errors = [] ∧
    pySetList (consume exampleArgs.sensor_name []
      [.wellformed badPayload, .wellformed goodPayload]).1 =
      [outOfRangeMsg "Temperature" 999 10 85] ∧
    ([] : List String) ≠ [outOfRangeMsg "Temperature" 999 10 85] := by
  refine ⟨rfl, rfl, ?_⟩
  intro h
  exact absurd (congrArg List.length h) (by decide)

/-- C9 amended: when no sample is accepted, the error list is the
deduplicated accumulation of all recorded errors (with the synthesized
no-telemetry error if nothing was recorded); when a sample is accepted,
the accumulated errors are discarded and the error list is empty.  The
returned list is always duplicate-free. -/
theorem mqtt_errors_semantics (a : Args) (topic : String) (msgs : List MqttMsg) (dur : ℚ) :
    (∀ p, (consume a.sensor_name [] msgs).2 = some p →
      (validate_mqtt_sensor a topic (.connected 0) msgs dur).errors = []) ∧
    ((consume a.sensor_name [] msgs).2 = none →
      (validate_mqtt_sensor a topic (.connected 0) msgs dur).errors =
        (if (pySetList (consume a.sensor_name [] msgs).1).isEmpty
         then ["No valid telemetry received"]
         else pySetList (consume a.sensor_name [] msgs).1)) ∧
    (validate_mqtt_sensor a topic (.connected 0) msgs dur).errors.Nodup := by
  have hv : validate_mqtt_sensor a topic (.connected 0) msgs dur =
      finishResult ("tele/" ++ topic ++ "/SENSOR") dur (consume a.sensor_name [] msgs) := rfl
  rcases hc : consume a.sensor_name [] msgs with ⟨errs, acc⟩
  rw [hv, hc]
  cases acc with
  | some p => simp [finishResult]
  | none =>
    refine ⟨by simp, fun _ => by simp [finishResult], ?_⟩
    by_cases hie : (pySetList errs).isEmpty
    · simp [finishResult, hie]
    · have herr : errs ≠ [] := by
        intro h0
        subst h0
        simp [pySetList] at hie
      simp [finishResult, hie, pySetList, List.nodup_dedup, herr]

/-- C9 amended witness: the accumulation branch evaluated on a concrete
failing run. -/
theorem mqtt_errors_semantics_witness :
    (validate_mqtt_sensor exampleArgs "tasmota" (.connected 0)
      [.wellformed badPayload, .wellformed badPayload] 3).errors =
      (if (pySetList (consume exampleArgs.sensor_name []
            [.wellformed badPayload, .wellformed badPayload]).1).isEmpty
       then ["No valid telemetry received"]
       else pySetList (consume exampleArgs.sensor_name []
            [.wellformed badPayload, .wellformed badPayload]).1) :=
  (mqtt_errors_semantics exampleArgs "tasmota"
    [.wellformed badPayload, .wellformed badPayload] 3).2.1 rfl

theorem serialLoop_no_fail (wf : ℕ → Bool) (rd : ℕ → String) (cs : List String) :
    ∀ (i : ℕ) (acc : List String) (rs : List (String × String)),
      (∀ j, wf j = false) →
      serialLoop wf rd i cs acc rs = (true, acc ++ cs, rs ++ readPairs rd i cs) := by
  induction cs with
  | nil =>
    intro i acc rs _
    simp [serialLoop, readPairs]
  | cons c rest ih =>
    intro i acc rs hw
    simp only [serialLoop, hw i, Bool.false_eq_true, if_false, readPairs]
    rw [ih (i + 1) (acc ++ [c]) (rs ++ [(c, rd i)]) hw]
    simp

theorem serialLoop_first_fail (wf : ℕ → Bool) (rd : ℕ → String) (cs : List String) :
    ∀ (k i : ℕ) (acc : List String) (rs : List (String × String)),
      k < cs.length →
      (∀ j, j < k → wf (i + j) = false) →
      wf (i + k) = true →
      serialLoop wf rd i cs acc rs =
        (false, acc ++ cs.take (k + 1), rs ++ readPairs rd i (cs.take k)) := by
  induction cs with
  | nil =>
    intro k i acc rs hk _ _
    simp at hk
  | cons c rest ih =>
    intro k i acc rs hk hlt hfail
    cases k with
    | zero =>
      have h0 : wf i = true := by simpa using hfail
      simp [serialLoop, h0, readPairs]
    | succ k2 =>
      have h0 : wf i = false := by simpa using hlt 0 (Nat.succ_pos _)
      simp only [serialLoop, h0, Bool.false_eq_true, if_false]
      rw [ih k2 (i + 1) (acc ++ [c]) (rs ++ [(c, rd i)]) (by simpa using hk)
        (fun j hj => by
          have h1 := hlt (j + 1) (Nat.succ_lt_succ hj)
          rwa [show i + (j + 1) = i + 1 + j by omega] at h1)
        (by rwa [show i + (k2 + 1) = i + 1 + k2 by omega] at hfail)]
      simp [List.take, readPairs]

/-- C1 counterexample: with a forced write failure on the third command,
`commands_sent` holds the first three commands (the failing one included,
since `send` appends before writing), not just the first two. -/
theorem serial_third_write_cex :
    (provision_via_serial failThirdPort exampleArgs).ok = false ∧
    (provision_via_serial failThirdPort exampleArgs).commands_sent =
      ["SSID1 homenet", "Password1 hunter2", "MqttHost 192.168.1.100"] ∧
    (provision_via_serial failThirdPort exampleArgs).commands_sent ≠
      ["SSID1 homenet", "Password1 hunter2"] := by
  refine ⟨rfl, rfl, ?_⟩
  intro h
  exact absurd (congrArg List.length h) (by decide)

/-- C1 amended: if the port opens and the first write failure is on the
`k`-th command (0-based), the outcome has `ok = false`, `commands_sent`
equal to the first `k + 1` commands (all attempted commands, the failing
one included), responses recorded for exactly the first `k` commands, and
the exception text as the error. -/
theorem serial_failure_keeps_failing_command (port : SerialPort) (a : Args) (k : ℕ)
    (hopen : port.openFails = false)
    (hk : k < (serialCommands a).length)
    (hbefore : ∀ j, j < k → port.writeFails j = false)
    (hfail : port.writeFails k = true) :
    (provision_via_serial port a).ok = false ∧
    (provision_via_serial port a).commands_sent = (serialCommands a).take (k + 1) ∧
    (provision_via_serial port a).responses =
      J.obj ((readPairs port.readData 0 ((serialCommands a).take k)).map
        fun p => (p.1, J.str p.2)) ∧
    (provision_via_serial port a).error = some port.exnMsg := by
  have hloop := serialLoop_first_fail port.writeFails port.readData (serialCommands a) k 0 [] []
    hk (fun j hj => by simpa using hbefore j hj) (by simpa using hfail)
  unfold provision_via_serial
  rw [hopen]
  simp only [Bool.false_eq_true, if_false, hloop]
  exact ⟨by simp, by simp, by simp, by simp⟩

/-- C1 witness: the amended theorem applied to the forced
third-write-failure port. -/
theorem serial_failure_keeps_failing_command_witness :
    (provision_via_serial failThirdPort exampleArgs).commands_sent =
      (serialCommands exampleArgs).take 3 :=
  (serial_failure_keeps_failing_command failThirdPort exampleArgs 2 rfl (by decide)
    (by decide) (by decide)).2.1

/-- C2 counterexample: with MQTT credentials configured, the serial
command sequence differs from the HTTP backlog sub-command sequence
(`TelePeriod` is placed after the credentials on serial, before them on
HTTP). -/
theorem strategies_order_cex : serialCommands exampleArgs ≠ httpBacklog exampleArgs := by
  decide

/-- C2 amended: the two strategies always issue the same multiset of
configuration directives, and the order also coincides exactly when no
MQTT username or password is configured; with credentials configured the
sequences are permutations differing in the placement of `TelePeriod`. -/
theorem strategies_commands_perm (a : Args) :
    (serialCommands a).Perm (httpBacklog a) ∧
    (truthy a.mqtt_user = false → truthy a.mqtt_password = false →
      serialCommands a = httpBacklog a) := by
  constructor
  · unfold serialCommands httpBacklog
    simp only [List.append_assoc, List.cons_append, List.nil_append]
    refine List.Perm.append_left _ (List.Perm.cons _ (List.Perm.cons _ ?_))
    rw [← List.append_assoc]
    refine (@List.perm_middle String ("TelePeriod " ++ toString a.teleperiod)
      (userCmds a ++ passCmds a) ["Restart 1"]).trans ?_
    rw [List.append_assoc]
  · intro hu hw
    unfold serialCommands httpBacklog userCmds passCmds
    simp [hu, hw]

/-- C2 witness: with no MQTT credentials the two command sequences are
equal; evaluated on a concrete credential-free configuration. -/
theorem strategies_commands_perm_witness :
    serialCommands exampleArgsNoCred = httpBacklog exampleArgsNoCred :=
  (strategies_commands_perm exampleArgsNoCred).2 rfl rfl

/-- C3 counterexample: a non-success HTTP response (status 500) whose body
is JSON yields `ok = true` — the status code is never inspected. -/
theorem http_non_success_cex :
    (provision_via_http (.resp 500 (.ok (J.obj []))) exampleArgs).ok = true ∧
    (500 : ℕ) ≠ 200 := ⟨rfl, by decide⟩

/-- C3 amended: a raised transport exception or a non-JSON body yields
`ok = false` with the raw exception text, while any response whose body
parses as JSON yields `ok = true` regardless of its HTTP status; in every
case `commands_sent` is exactly the one composite Backlog command. -/
theorem http_outcome_semantics (a : Args) :
    (∀ out, (provision_via_http out a).commands_sent = [httpFullCmd a]) ∧
    (∀ m, (provision_via_http (.exn m) a).ok = false ∧
      (provision_via_http (.exn m) a).error = some m) ∧
    (∀ st m, (provision_via_http (.resp st (.error m)) a).ok = false ∧
      (provision_via_http (.resp st (.error m)) a).error = some m) ∧
    (∀ st j, (provision_via_http (.resp st (.ok j)) a).ok = true ∧
      (provision_via_http (.resp st (.ok j)) a).responses = j) := by
  refine ⟨fun out => ?_, fun m => ⟨rfl, rfl⟩, fun st m => ⟨rfl, rfl⟩,
    fun st j => ⟨rfl, rfl⟩⟩
  cases out with
  | exn m => rfl
  | resp st body => cases body <;> rfl

/-- C6 counterexample: a 200 response whose JSON has a `Status` object
with no `Topic` key still yields a DeviceRecord (topic defaulted to
`"unknown"`), so records are not limited to addresses with a parseable
`Status.Topic`. -/
theorem scan_no_topic_cex :
    probe_ip (.resp 200 (some (J.obj [("Status", J.obj [])]))) "10.0.0.7" 80 =
      some { ip := "10.0.0.7", port := 80, topic := some (J.str "unknown"),
             model := some (J.str "Tasmota"), discovered_by := "http-probe" } ∧
    lookupJ ([] : List (String × J)) "Topic" = none := ⟨rfl, rfl⟩

/-- C6 amended: the sweep issues exactly one probe per host address, a
device record appears in the result exactly for addresses whose probe
succeeded, and a probe succeeds exactly on a 200 response whose JSON body
is an object carrying an object-valued top-level `Status` key (a `Topic`
sub-field is not required); every other outcome yields no record without
aborting the sweep. -/
theorem scan_records_characterization (hosts : List String)
    (net : String → ProbeOutcome) (port : ℤ) :
    (probeResults hosts net port).length = hosts.length ∧
    (∀ d, d ∈ scan_network hosts net port ↔
      ∃ ip ∈ hosts, probe_ip (net ip) ip port = some d) ∧
    (∀ o ip p, (probe_ip o ip p).isSome = true ↔
      ∃ kvs st, o = .resp 200 (some (J.obj kvs)) ∧
        lookupJ kvs "Status" = some (J.obj st)) := by
  refine ⟨by simp [probeResults], fun d => ?_, fun o ip p => ?_⟩
  · simp [scan_network, probeResults, List.mem_filterMap, List.mem_map]
  · cases o with
    | exn => simp [probe_ip]
    | resp st body =>
      by_cases hst : st = 200
      · subst hst
        cases body with
        | none => simp [probe_ip]
        | some j =>
          cases j with
          | obj kvs =>
            cases hl : lookupJ kvs "Status" with
            | none => simp [probe_ip, hl]
            | some v =>
              cases v with
              | num q => simp [probe_ip, hl]
              | str s => simp [probe_ip, hl]
              | jbool b => simp [probe_ip, hl]
              | null => simp [probe_ip, hl]
              | arr xs => simp [probe_ip, hl]
              | obj st2 =>
                simp only [probe_ip, hl, if_true, Option.isSome_some, true_iff, eq_self_iff_true]
                exact ⟨kvs, st2, rfl, hl⟩
          | num q => simp [probe_ip]
          | str s => simp [probe_ip]
          | jbool b => simp [probe_ip]
          | null => simp [probe_ip]
          | arr xs => simp [probe_ip]
      · simp only [probe_ip, if_neg hst, Option.isSome_none, Bool.false_eq_true, false_iff]
        rintro ⟨kvs, st2, heq, -⟩
        cases heq
        exact hst rfl

theorem probe_tag (o : ProbeOutcome) (ip : String) (p : ℤ) (d : DeviceInfo)
    (h : probe_ip o ip p = some d) : d.discovered_by = "http-probe" := by
  cases o with
  | exn => simp [probe_ip] at h
  | resp st body =>
    by_cases hst : st = 200
    · subst hst
      cases body with
      | none => simp [probe_ip] at h
      | some j =>
        cases j with
        | obj kvs =>
          cases hl : lookupJ kvs "Status" with
          | none => simp [probe_ip, hl] at h
          | some v =>
            cases v with
            | obj st2 =>
              simp only [probe_ip, hl, if_true, Option.some.injEq] at h
              rw [← h]
            | num q => simp [probe_ip, hl] at h
            | str s => simp [probe_ip, hl] at h
            | jbool b => simp [probe_ip, hl] at h
            | null => simp [probe_ip, hl] at h
            | arr xs => simp [probe_ip, hl] at h
        | num q => simp [probe_ip] at h
        | str s => simp [probe_ip] at h
        | jbool b => simp [probe_ip] at h
        | null => simp [probe_ip] at h
        | arr xs => simp [probe_ip] at h
    · simp [probe_ip, hst] at h

/-- C7 counterexample: a successful network-sweep probe emits a record
tagged `"http-probe"`, which is neither `"scan"` nor
`"serial-rediscovery"`. -/
theorem scan_tag_cex :
    (probe_ip (.resp 200 (some (J.obj [("Status", J.obj [])]))) "10.0.0.9" 80).map
      DeviceInfo.discovered_by = some "http-probe" ∧
    ("http-probe" : String) ≠ "scan" ∧
    ("http-probe" : String) ≠ "serial-rediscovery" :=
  ⟨rfl, by decide, by decide⟩

/-- C7 amended: every record emitted by the network sweep carries the
provenance tag `"http-probe"`, and a manually targeted device carries
`"manual"` (the dataclass default `"scan"` is overridden at both
construction sites). -/
theorem scan_tag_is_http_probe (hosts : List String) (net : String → ProbeOutcome)
    (port : ℤ) :
    (∀ d ∈ scan_network hosts net port, d.discovered_by = "http-probe") ∧
    (∀ ip, (manualDevice ip).discovered_by = "manual") := by
  refine ⟨fun d hd => ?_, fun ip => rfl⟩
  simp only [scan_network, probeResults, List.mem_filterMap, List.mem_map, id] at hd
  obtain ⟨op, ⟨ip, hip, hop⟩, hopd⟩ := hd
  exact probe_tag (net ip) ip port d (hop ▸ hopd)

/-- C7 witness: the amended theorem applied to a concrete two-address
sweep. -/
theorem scan_tag_is_http_probe_witness : exampleScanDevice.discovered_by = "http-probe" :=
  (scan_tag_is_http_probe ["10.0.0.7", "10.0.0.8"] exampleNet 80).1 exampleScanDevice
    (by
      rw [show scan_network ["10.0.0.7", "10.0.0.8"] exampleNet 80 = [exampleScanDevice]
        from rfl]
      exact List.mem_singleton_self _)

theorem isSubstr_refl (n : String) : IsSubstr n n := ⟨[], [], by simp⟩

theorem IsSubstr.trans {a b c : String} (h1 : IsSubstr a b) (h2 : IsSubstr b c) :
    IsSubstr a c := by
  obtain ⟨p1, s1, e1⟩ := h1
  obtain ⟨p2, s2, e2⟩ := h2
  exact ⟨p2 ++ p1, s1 ++ s2, by rw [e2, e1]; simp [List.append_assoc]⟩

theorem isSubstr_append_left (n h g : String) (hs : IsSubstr n h) :
    IsSubstr n (g ++ h) := by
  obtain ⟨pre, post, e⟩ := hs
  exact ⟨g.data ++ pre, post, by simp [String.data_append, e, List.append_assoc]⟩

theorem isSubstr_self_append (n t : String) : IsSubstr n (n ++ t) :=
  ⟨[], t.data, by simp [String.data_append]⟩

theorem isSubstr_append_right (n h g : String) (hs : IsSubstr n h) :
    IsSubstr n (h ++ g) := by
  obtain ⟨pre, post, e⟩ := hs
  exact ⟨pre, post ++ g.data, by simp [String.data_append, e, List.append_assoc]⟩

theorem joinSemi_cons2 (x y : String) (rest : List String) :
    joinSemi (x :: y :: rest) = x ++ "; " ++ joinSemi (y :: rest) := rfl

theorem isSubstr_of_mem_joinSemi (c : String) (l : List String) (hc : c ∈ l) :
    IsSubstr c (joinSemi l) := by
  induction l with
  | nil => cases hc
  | cons x rest ih =>
    cases rest with
    | nil =>
      rcases List.mem_singleton.mp hc with rfl
      exact ⟨[], [], by simp [joinSemi]⟩
    | cons y rest2 =>
      rw [joinSemi_cons2]
      rcases List.mem_cons.mp hc with rfl | hc2
      · exact isSubstr_append_right c (c ++ "; ") _ (isSubstr_self_append c "; ")
      · exact isSubstr_append_left c _ (x ++ "; ") (ih hc2)

theorem mem_passCmds (a : Args) (p : String) (hp : a.mqtt_password = some p)
    (hne : p ≠ "") : ("MqttPassword " ++ p) ∈ passCmds a := by
  have hie : p.isEmpty = false := by
    cases hpe : p.isEmpty
    · rfl
    · exact absurd ((String.isEmpty_iff p).mp (by simp [hpe])) hne
  have ht2 : truthy (some p) = true := by simp [truthy, hie]
  simp [passCmds, hp, ht2]

theorem readPairs_map_fst (rd : ℕ → String) :
    ∀ (i : ℕ) (cs : List String), (readPairs rd i cs).map Prod.fst = cs := by
  intro i cs
  induction cs generalizing i with
  | nil => rfl
  | cons c rest ih => simp [readPairs, ih]

theorem isPrefixChars_append (xs ys : List Char) : isPrefixChars xs (xs ++ ys) = true := by
  induction xs with
  | nil => rfl
  | cons c rest ih => simp [isPrefixChars, ih]

theorem containsChars_complete (n : List Char) (pre post : List Char) :
    containsChars n (pre ++ (n ++ post)) = true := by
  induction pre with
  | nil =>
    show containsChars n (n ++ post) = true
    rcases hnp : n ++ post with _ | ⟨c, rest⟩
    · obtain ⟨h1, h2⟩ := List.append_eq_nil.mp hnp
      subst h1
      rfl
    · have hp2 : isPrefixChars n (c :: rest) = true := by
        rw [← hnp]
        exact isPrefixChars_append n post
      simp [containsChars, hp2]
  | cons c pre2 ih =>
    show containsChars n (c :: (pre2 ++ (n ++ post))) = true
    simp [containsChars, ih]

theorem not_isSubstr_of_strContains_false (needle hay : String)
    (h : strContains hay needle = false) : ¬ IsSubstr needle hay := by
  rintro ⟨pre, post, e⟩
  have h2 : containsChars needle.data hay.data = true := by
    rw [e, List.append_assoc]
    exact containsChars_complete needle.data pre post
  unfold strContains at h
  rw [h2] at h
  simp at h

theorem mem_ssidCmds (a : Args) (w : String) (hs : truthy a.wifi_ssid = true)
    (hw : a.wifi_password = some w) (hne : w ≠ "") :
    ("Password1 " ++ w) ∈ ssidCmds a := by
  have hie : w.isEmpty = false := by
    cases hpe : w.isEmpty
    · rfl
    · exact absurd ((String.isEmpty_iff w).mp (by simp [hpe])) hne
  have ht2 : truthy (some w) = true := by simp [truthy, hie]
  simp [ssidCmds, hs, hw, ht2]

/-- C10 counterexample: a WiFi password supplied without an SSID is sent
by neither strategy (`Password1` is emitted only under the SSID guard),
so no command embeds the secret and the provisioning logs of the report
do not depend on it. -/
theorem wifi_password_no_ssid_cex :
    wifiOnlyArgs.wifi_password = some "wpass" ∧
    ¬ IsSubstr "wpass" (httpFullCmd wifiOnlyArgs) ∧
    ((serialCommands wifiOnlyArgs).all fun c => !strContains c "wpass") = true ∧
    serialCommands { wifiOnlyArgs with wifi_password := some "other" } =
      serialCommands wifiOnlyArgs ∧
    httpFullCmd { wifiOnlyArgs with wifi_password := some "other" } =
      httpFullCmd wifiOnlyArgs :=
  ⟨rfl,
   not_isSubstr_of_strContains_false "wpass" (httpFullCmd wifiOnlyArgs) (by decide),
   by decide, rfl, rfl⟩

/-- C10 amended: a non-empty broker password — and a non-empty WiFi
password when a truthy SSID is also configured — appears in plaintext in
the commands of both strategies (and in the serial responses keys, which
coincide with the command list); these land unredacted in the report's
`provisioning_logs`, while `config_used` drops every key containing
"password" and is independent of both password values.  Without an SSID,
the WiFi password is sent by neither strategy and the commands do not
depend on it. -/
theorem plaintext_password_in_report (a : Args) :
    (∀ p, a.mqtt_password = some p → p ≠ "" →
      IsSubstr p (httpFullCmd a) ∧ ("MqttPassword " ++ p) ∈ serialCommands a) ∧
    (∀ w, truthy a.wifi_ssid = true → a.wifi_password = some w → w ≠ "" →
      IsSubstr w (httpFullCmd a) ∧ ("Password1 " ++ w) ∈ serialCommands a) ∧
    (truthy a.wifi_ssid = false → ∀ x,
      serialCommands { a with wifi_password := x } = serialCommands a ∧
      httpFullCmd { a with wifi_password := x } = httpFullCmd a) ∧
    (∀ out, (provision_via_http out a).commands_sent = [httpFullCmd a]) ∧
    (∀ port : SerialPort, port.openFails = false → (∀ j, port.writeFails j = false) →
      (provision_via_serial port a).commands_sent = serialCommands a ∧
      jObjKeys (provision_via_serial port a).responses = serialCommands a) ∧
    (∀ kv ∈ configUsed a, strContains kv.1 "password" = false) ∧
    (∀ x y, configUsed { a with mqtt_password := x, wifi_password := y } = configUsed a) ∧
    (∀ devs prov mq, (buildReport a devs prov mq).provisioning_logs = prov ∧
      (buildReport a devs prov mq).config_used = configUsed a) := by
  refine ⟨?_, ?_, ?_, ?_, ?_, ?_, fun x y => rfl, fun devs prov mq => ⟨rfl, rfl⟩⟩
  · intro p hp hne
    have hmemPass : ("MqttPassword " ++ p) ∈ passCmds a := mem_passCmds a p hp hne
    have hmemSerial : ("MqttPassword " ++ p) ∈ serialCommands a := by
      unfold serialCommands
      simp [List.mem_append, hmemPass]
    have hmemHttp : ("MqttPassword " ++ p) ∈ httpBacklog a := by
      unfold httpBacklog
      simp [List.mem_append, hmemPass]
    refine ⟨?_, hmemSerial⟩
    have h1 : IsSubstr p ("MqttPassword " ++ p) :=
      isSubstr_append_left p p "MqttPassword " (isSubstr_refl p)
    exact isSubstr_append_left p _ "Backlog "
      (h1.trans (isSubstr_of_mem_joinSemi _ _ hmemHttp))
  · intro w hs hw hne
    have hmemSsid : ("Password1 " ++ w) ∈ ssidCmds a := mem_ssidCmds a w hs hw hne
    have hmemSerial : ("Password1 " ++ w) ∈ serialCommands a := by
      unfold serialCommands
      simp [List.mem_append, hmemSsid]
    have hmemHttp : ("Password1 " ++ w) ∈ httpBacklog a := by
      unfold httpBacklog
      simp [List.mem_append, hmemSsid]
    refine ⟨?_, hmemSerial⟩
    have h1 : IsSubstr w ("Password1 " ++ w) :=
      isSubstr_append_left w w "Password1 " (isSubstr_refl w)
    exact isSubstr_append_left w _ "Backlog "
      (h1.trans (isSubstr_of_mem_joinSemi _ _ hmemHttp))
  · intro hs0 x
    constructor
    · unfold serialCommands ssidCmds userCmds passCmds
      simp [hs0]
    · unfold httpFullCmd httpBacklog ssidCmds userCmds passCmds
      simp [hs0]
  · intro out
    cases out with
    | exn m => rfl
    | resp st body => cases body <;> rfl
  · intro port hopen hnf
    have hloop := serialLoop_no_fail port.writeFails port.readData (serialCommands a) 0 [] [] hnf
    unfold provision_via_serial
    rw [hopen]
    simp only [Bool.false_eq_true, if_false, hloop]
    refine ⟨by simp, ?_⟩
    show (((readPairs port.readData 0 (serialCommands a)).map
        (fun p2 : String × String => (p2.1, J.str p2.2))).map Prod.fst) = serialCommands a
    rw [List.map_map]
    exact readPairs_map_fst port.readData 0 (serialCommands a)
  · intro kv hkv
    have h2 := List.mem_filter.mp hkv
    simpa using h2.2

/-- C8 witness: the invariant applied to the spec's empty-stream
two-second-budget scenario (a synthesized non-empty error list). -/
theorem mqtt_outcome_invariant_witness :
    (validate_mqtt_sensor exampleArgs "tasmota" (.connected 0) [] 2).errors ≠ [] :=
  (mqtt_outcome_invariant exampleArgs "tasmota" (.connected 0) [] 2).2 rfl

/-- C10 witness: both the broker password and the WiFi password of the
concrete configuration (which has a truthy SSID) appear among the serial
commands. -/
theorem plaintext_password_in_report_witness :
    ("MqttPassword " ++ "mqpass") ∈ serialCommands exampleArgs ∧
    ("Password1 " ++ "hunter2") ∈ serialCommands exampleArgs :=
  ⟨((plaintext_password_in_report exampleArgs).1 "mqpass" rfl (by decide)).2,
   ((plaintext_password_in_report exampleArgs).2.1 "hunter2" rfl rfl (by decide)).2⟩
